import Mathlib

/-!
Verification of the cldnn GPU engine's allocation policy, usage ledger and
factory (src/plugins/intel_gpu/src/runtime/engine.cpp) against its design
specification.  The engine's pure decision logic and its ledger state
transitions are embedded as Lean functions; machine integers (uint64_t)
are modelled as Nat with arithmetic taken modulo 2^64 where the C++
arithmetic wraps.
-/

/-- Modelled from the spec: the `allocation_type` enumeration is declared in a
header that is not part of the shown sources.  The three unified tiers are
named exactly as `engine.cpp` references them (`usm_device`, `usm_host`,
`usm_shared`); the remaining buffer classes follow the spec's data model
(`plain_buffer`, `image`). -/
inductive allocation_type where
  | usm_device
  | usm_host
  | usm_shared
  | plain_buffer
  | image
  deriving DecidableEq, Repr

/-- Modelled from the spec: `memory_capabilities::is_usm_type` is declared in a
header that is not part of the shown sources.  Per the spec's capability rules,
the unified (USM) types are exactly the three unified tiers. -/
def is_usm_type : allocation_type → Bool
  | allocation_type.usm_device => true
  | allocation_type.usm_host => true
  | allocation_type.usm_shared => true
  | allocation_type.plain_buffer => false
  | allocation_type.image => false

/-- The immutable per-device view an engine holds: the device capability
bitset (`device->get_mem_caps().support_allocation_type`), the device USM
capability (`get_mem_caps().supports_usm()`), the process-wide feature gate
(`debug_config->disable_usm`), and the `get_default_allocation_type()` hook,
which the spec treats as an external collaborator supplying one concrete
allocation type. -/
structure mem_caps where
  support_allocation_type : allocation_type → Bool
  supports_usm : Bool
  disable_usm : Bool
  default_alloc : allocation_type

/-- `engine::use_unified_shared_memory` (engine.cpp lines 70-79): false when
the debug gate disables USM, otherwise the device USM capability. -/
def use_unified_shared_memory (c : mem_caps) : Bool :=
  if c.disable_usm then false
  else if c.supports_usm then true
  else false

/-- `engine::supports_allocation` (engine.cpp lines 86-92): USM types are
unsupported when USM is unusable; `usm_shared` is always reported
unsupported; otherwise defer to the device capability bitset. -/
def supports_allocation (c : mem_caps) (t : allocation_type) : Bool :=
  if is_usm_type t && !(use_unified_shared_memory c) then false
  else if allocation_type.usm_shared = t then false
  else c.support_allocation_type t

/-- `engine::get_lockable_preferred_memory_allocation_type` (engine.cpp lines
94-113).  The `OPENVINO_ASSERT(false, ...)` fatal error is modelled as
`none`. -/
def get_lockable_preferred_memory_allocation_type (c : mem_caps)
    (is_image_layout : Bool) : Option allocation_type :=
  if !(use_unified_shared_memory c) || is_image_layout then
    some c.default_alloc
  else
    let support_usm_host := supports_allocation c allocation_type.usm_host
    let support_usm_shared := supports_allocation c allocation_type.usm_shared
    if support_usm_shared then some allocation_type.usm_shared
    else if support_usm_host then some allocation_type.usm_host
    else none

/-- `engine::get_preferred_memory_allocation_type` (engine.cpp lines
115-127).  The `OPENVINO_ASSERT(false, ...)` fatal error is modelled as
`none`. -/
def get_preferred_memory_allocation_type (c : mem_caps)
    (is_image_layout : Bool) : Option allocation_type :=
  if !(use_unified_shared_memory c) || is_image_layout then
    some c.default_alloc
  else if supports_allocation c allocation_type.usm_device then
    some allocation_type.usm_device
  else if supports_allocation c allocation_type.usm_host then
    some allocation_type.usm_host
  else none

/-- The slice of `format` the engine consults: `format.is_image_2d()`. -/
structure format_desc where
  is_image_2d : Bool

/-- The slice of `layout` the engine consults when choosing an allocation
type: its format. -/
structure mem_layout where
  format : format_desc

/-- The allocation-type-selection step of `engine::allocate_memory(layout,
reset)` (engine.cpp lines 133-136): the type is chosen by
`get_lockable_preferred_memory_allocation_type(layout.format.is_image_2d())`
before delegating to the backend allocation entry point (which is external
to this subsystem). -/
def allocate_memory_alloc_type (c : mem_caps) (l : mem_layout) :
    Option allocation_type :=
  get_lockable_preferred_memory_allocation_type c l.format.is_image_2d

/-- A capability set in which the device supports every allocation type,
USM is available and the feature gate is enabled. -/
def caps_all : mem_caps :=
  { support_allocation_type := fun _ => true
    supports_usm := true
    disable_usm := false
    default_alloc := allocation_type.plain_buffer }

/-- A concrete non-image layout. -/
def layout_buffer : mem_layout := { format := { is_image_2d := false } }

/-! ## Usage ledger

The maps `_memory_usage_map` and `_peak_memory_usage_map` (both
`std::map<allocation_type, std::atomic<uint64_t>>`) are embedded as
association lists keyed by `allocation_type`; the uint64_t counters are
`Nat` with arithmetic modulo `2^64`. -/

/-- `uint64_t` addition: wraps modulo `2^64`. -/
def u64_add (a b : Nat) : Nat := (a + b) % 2 ^ 64

/-- `uint64_t` subtraction: wraps modulo `2^64`. -/
def u64_sub (a b : Nat) : Nat := (a + (2 ^ 64 - b % 2 ^ 64)) % 2 ^ 64

/-- `std::map::find` on an association list. -/
def map_find (m : List (allocation_type × Nat)) (t : allocation_type) :
    Option Nat :=
  match m with
  | [] => none
  | (k, v) :: rest => if k = t then some v else map_find rest t

/-- Reading through `std::map::operator[]` / `find` with the map's
value-initialised default of 0. -/
def map_get (m : List (allocation_type × Nat)) (t : allocation_type) : Nat :=
  (map_find m t).getD 0

/-- Writing through `std::map::operator[]`: overwrite the entry if present,
insert it otherwise. -/
def map_set (m : List (allocation_type × Nat)) (t : allocation_type)
    (v : Nat) : List (allocation_type × Nat) :=
  match m with
  | [] => [(t, v)]
  | (k, w) :: rest =>
    if k = t then (k, v) :: rest else (k, w) :: map_set rest t v

/-- The mutable ledger state owned by one engine: the per-type
current-usage map and the per-type peak map. -/
structure ledger_state where
  usage : List (allocation_type × Nat)
  peak : List (allocation_type × Nat)
  deriving DecidableEq, Repr

/-- The freshly empty ledger an engine starts with. -/
def empty_ledger : ledger_state := { usage := [], peak := [] }

/-- First step of `engine::add_memory_used` (engine.cpp lines 230-233):
when neither map holds an entry for the type, both entries are
initialised to 0. -/
def ledger_init_entry (t : allocation_type) (s : ledger_state) :
    ledger_state :=
  if (map_find s.usage t).isNone && (map_find s.peak t).isNone then
    { usage := map_set s.usage t 0, peak := map_set s.peak t 0 }
  else s

/-- Second step of `engine::add_memory_used` (engine.cpp line 234):
`_memory_usage_map[type] += bytes` with uint64_t wrap-around. -/
def ledger_credit_usage (bytes : Nat) (t : allocation_type)
    (s : ledger_state) : ledger_state :=
  { s with usage := map_set s.usage t (u64_add (map_get s.usage t) bytes) }

/-- `engine::add_memory_used` (engine.cpp lines 228-238): initialise both
entries to 0 when neither map has the type, add `bytes` to the current
counter, then raise the peak counter when the current counter exceeds
it. -/
def add_memory_used (bytes : Nat) (t : allocation_type)
    (s : ledger_state) : ledger_state :=
  let s2 := ledger_credit_usage bytes t (ledger_init_entry t s)
  if map_get s2.usage t > map_get s2.peak t then
    { s2 with peak := map_set s2.peak t (map_get s2.usage t) }
  else s2

/-- `engine::subtract_memory_used` (engine.cpp lines 240-248): when the
type has a current-usage entry, subtract `bytes` from it (uint64_t wrap);
otherwise throw `std::runtime_error("Attempt to free unallocated
memory")`, modelled as `Except.error`. -/
def subtract_memory_used (bytes : Nat) (t : allocation_type)
    (s : ledger_state) : Except String ledger_state :=
  match map_find s.usage t with
  | some cur => Except.ok { s with usage := map_set s.usage t (u64_sub cur bytes) }
  | none => Except.error "Attempt to free unallocated memory"

/-- `engine::get_used_device_memory(type)` (engine.cpp lines 207-215):
the current counter for the type, 0 when no entry exists. -/
def get_used_device_memory (s : ledger_state) (t : allocation_type) : Nat :=
  map_get s.usage t

/-- `engine::get_max_used_device_memory(type)` (engine.cpp lines 197-205):
the peak counter for the type, 0 when no entry exists. -/
def get_max_used_device_memory (s : ledger_state) (t : allocation_type) : Nat :=
  map_get s.peak t

/-- One ledger operation: a credit (`add_memory_used`) or a debit
(`subtract_memory_used`). -/
inductive ledger_op where
  | credit (bytes : Nat) (t : allocation_type)
  | debit (bytes : Nat) (t : allocation_type)
  deriving DecidableEq, Repr

/-- Apply one operation to the ledger.  A debit that throws (no entry for
the type) leaves the ledger unchanged: in the source the `throw` is the
whole else-branch of `subtract_memory_used` and no map is touched before
it (engine.cpp lines 240-248). -/
def apply_op (op : ledger_op) (s : ledger_state) : ledger_state :=
  match op with
  | ledger_op.credit b t => add_memory_used b t s
  | ledger_op.debit b t =>
    match subtract_memory_used b t s with
    | Except.ok s1 => s1
    | Except.error _ => s

/-- Run a sequence of ledger operations from a starting state. -/
def run_ops (s : ledger_state) (ops : List ledger_op) : ledger_state :=
  ops.foldl (fun st op => apply_op op st) s

/-- Each debit in the sequence stays within the current tracked balance of
its type at its point in the sequence. -/
def valid_debits (s : ledger_state) (ops : List ledger_op) : Bool :=
  match ops with
  | [] => true
  | op :: rest =>
    (match op with
     | ledger_op.credit _ _ => true
     | ledger_op.debit b t => decide (b ≤ get_used_device_memory s t)) &&
    valid_debits (apply_op op s) rest

/-- Sum of the credited bytes for one type over a sequence. -/
def credit_sum (t : allocation_type) (ops : List ledger_op) : Nat :=
  match ops with
  | [] => 0
  | ledger_op.credit b t1 :: rest =>
    (if t1 = t then b else 0) + credit_sum t rest
  | ledger_op.debit _ _ :: rest => credit_sum t rest

/-- Sum of the debited bytes for one type over a sequence. -/
def debit_sum (t : allocation_type) (ops : List ledger_op) : Nat :=
  match ops with
  | [] => 0
  | ledger_op.debit b t1 :: rest =>
    (if t1 = t then b else 0) + debit_sum t rest
  | ledger_op.credit _ _ :: rest => debit_sum t rest

/-! ## Helper lemmas about the map and uint64 operations -/

theorem map_find_set_self (m : List (allocation_type × Nat))
    (t : allocation_type) (v : Nat) : map_find (map_set m t v) t = some v := by
  induction m with
  | nil => simp [map_set, map_find]
  | cons hd rest ih =>
    obtain ⟨k, w⟩ := hd
    by_cases hk : k = t
    · simp [map_set, map_find, hk]
    · simp [map_set, map_find, hk, ih]

theorem map_find_set_other (m : List (allocation_type × Nat))
    (t t1 : allocation_type) (v : Nat) (h : t1 ≠ t) :
    map_find (map_set m t v) t1 = map_find m t1 := by
  have h' : ¬(t = t1) := fun hh => h hh.symm
  induction m with
  | nil => simp [map_set, map_find, h']
  | cons hd rest ih =>
    obtain ⟨k, w⟩ := hd
    by_cases hk : k = t
    · subst hk
      simp [map_set, map_find, h']
    · simp [map_set, map_find, hk, ih]

theorem map_get_set_self (m : List (allocation_type × Nat))
    (t : allocation_type) (v : Nat) : map_get (map_set m t v) t = v := by
  simp [map_get, map_find_set_self]

theorem map_get_set_other (m : List (allocation_type × Nat))
    (t t1 : allocation_type) (v : Nat) (h : t1 ≠ t) :
    map_get (map_set m t v) t1 = map_get m t1 := by
  simp [map_get, map_find_set_other m t t1 v h]

theorem u64_add_lt (a b : Nat) : u64_add a b < 2 ^ 64 :=
  Nat.mod_lt _ (by norm_num)

theorem u64_sub_lt (a b : Nat) : u64_sub a b < 2 ^ 64 :=
  Nat.mod_lt _ (by norm_num)

theorem u64_add_eq (a b : Nat) (h : a + b < 2 ^ 64) : u64_add a b = a + b :=
  Nat.mod_eq_of_lt h

theorem u64_sub_eq (a b : Nat) (hb : b ≤ a) (ha : a < 2 ^ 64) :
    u64_sub a b = a - b := by
  unfold u64_sub
  have hblt : b < 2 ^ 64 := lt_of_le_of_lt hb ha
  have hbmod : b % 2 ^ 64 = b := Nat.mod_eq_of_lt hblt
  rw [hbmod]
  have hrw : a + (2 ^ 64 - b) = 2 ^ 64 + (a - b) := by omega
  rw [hrw, Nat.add_mod_left]
  exact Nat.mod_eq_of_lt (by omega)

/-- Underflow: subtracting more than the stored value wraps around. -/
theorem u64_sub_wrap (a b : Nat) (hab : a < b) (hb : b < 2 ^ 64) :
    u64_sub a b = 2 ^ 64 - (b - a) := by
  unfold u64_sub
  have hbmod : b % 2 ^ 64 = b := Nat.mod_eq_of_lt hb
  rw [hbmod]
  have hrw : a + (2 ^ 64 - b) = 2 ^ 64 - (b - a) := by omega
  rw [hrw]
  exact Nat.mod_eq_of_lt (by omega)

/-! ## Characterisation of the ledger transitions -/

theorem init_usage_get (t t1 : allocation_type) (s : ledger_state) :
    map_get (ledger_init_entry t s).usage t1 = map_get s.usage t1 := by
  unfold ledger_init_entry
  by_cases hc : ((map_find s.usage t).isNone && (map_find s.peak t).isNone) = true
  · rw [if_pos hc]
    have hu : map_find s.usage t = none := by
      rcases Bool.and_eq_true_iff.mp hc with ⟨h1, _⟩
      exact Option.isNone_iff_eq_none.mp h1
    show map_get (map_set s.usage t 0) t1 = map_get s.usage t1
    by_cases ht : t1 = t
    · subst ht
      rw [map_get_set_self]
      simp [map_get, hu]
    · rw [map_get_set_other _ _ _ _ ht]
  · rw [if_neg hc]

theorem init_peak_get (t t1 : allocation_type) (s : ledger_state) :
    map_get (ledger_init_entry t s).peak t1 = map_get s.peak t1 := by
  unfold ledger_init_entry
  by_cases hc : ((map_find s.usage t).isNone && (map_find s.peak t).isNone) = true
  · rw [if_pos hc]
    have hp : map_find s.peak t = none := by
      rcases Bool.and_eq_true_iff.mp hc with ⟨_, h2⟩
      exact Option.isNone_iff_eq_none.mp h2
    show map_get (map_set s.peak t 0) t1 = map_get s.peak t1
    by_cases ht : t1 = t
    · subst ht
      rw [map_get_set_self]
      simp [map_get, hp]
    · rw [map_get_set_other _ _ _ _ ht]
  · rw [if_neg hc]

theorem credit_usage_get_self (b : Nat) (t : allocation_type)
    (s : ledger_state) :
    map_get (ledger_credit_usage b t s).usage t
      = u64_add (map_get s.usage t) b := by
  simp [ledger_credit_usage, map_get_set_self]

theorem credit_usage_get_other (b : Nat) (t t1 : allocation_type)
    (s : ledger_state) (h : t1 ≠ t) :
    map_get (ledger_credit_usage b t s).usage t1 = map_get s.usage t1 := by
  simp [ledger_credit_usage, map_get_set_other _ _ _ _ h]

theorem credit_usage_peak (b : Nat) (t : allocation_type)
    (s : ledger_state) : (ledger_credit_usage b t s).peak = s.peak := rfl

theorem get_used_add_self (b : Nat) (t : allocation_type) (s : ledger_state) :
    get_used_device_memory (add_memory_used b t s) t
      = u64_add (get_used_device_memory s t) b := by
  unfold add_memory_used get_used_device_memory
  by_cases hgt : map_get (ledger_credit_usage b t (ledger_init_entry t s)).usage t
      > map_get (ledger_credit_usage b t (ledger_init_entry t s)).peak t
  · simp only [hgt, if_true, gt_iff_lt]
    rw [credit_usage_get_self, init_usage_get]
  · simp only [hgt, if_false, gt_iff_lt]
    rw [credit_usage_get_self, init_usage_get]

theorem get_used_add_other (b : Nat) (t t1 : allocation_type)
    (s : ledger_state) (h : t1 ≠ t) :
    get_used_device_memory (add_memory_used b t s) t1
      = get_used_device_memory s t1 := by
  unfold add_memory_used get_used_device_memory
  by_cases hgt : map_get (ledger_credit_usage b t (ledger_init_entry t s)).usage t
      > map_get (ledger_credit_usage b t (ledger_init_entry t s)).peak t
  · simp only [hgt, if_true, gt_iff_lt]
    rw [credit_usage_get_other _ _ _ _ h, init_usage_get]
  · simp only [hgt, if_false, gt_iff_lt]
    rw [credit_usage_get_other _ _ _ _ h, init_usage_get]

theorem get_max_add_self (b : Nat) (t : allocation_type) (s : ledger_state) :
    get_max_used_device_memory (add_memory_used b t s) t
      = max (get_max_used_device_memory s t)
          (u64_add (get_used_device_memory s t) b) := by
  unfold add_memory_used get_max_used_device_memory get_used_device_memory
  have husage : map_get (ledger_credit_usage b t (ledger_init_entry t s)).usage t
      = u64_add (map_get s.usage t) b := by
    rw [credit_usage_get_self, init_usage_get]
  have hpeak : map_get (ledger_credit_usage b t (ledger_init_entry t s)).peak t
      = map_get s.peak t := by
    rw [credit_usage_peak, init_peak_get]
  by_cases hgt : map_get (ledger_credit_usage b t (ledger_init_entry t s)).usage t
      > map_get (ledger_credit_usage b t (ledger_init_entry t s)).peak t
  · simp only [hgt, if_true, gt_iff_lt]
    rw [map_get_set_self, husage]
    rw [husage, hpeak] at hgt
    omega
  · simp only [hgt, if_false, gt_iff_lt]
    rw [hpeak]
    rw [husage, hpeak] at hgt
    omega

theorem get_max_add_other (b : Nat) (t t1 : allocation_type)
    (s : ledger_state) (h : t1 ≠ t) :
    get_max_used_device_memory (add_memory_used b t s) t1
      = get_max_used_device_memory s t1 := by
  unfold add_memory_used get_max_used_device_memory
  by_cases hgt : map_get (ledger_credit_usage b t (ledger_init_entry t s)).usage t
      > map_get (ledger_credit_usage b t (ledger_init_entry t s)).peak t
  · simp only [hgt, if_true, gt_iff_lt]
    rw [map_get_set_other _ _ _ _ h, credit_usage_peak, init_peak_get]
  · simp only [hgt, if_false, gt_iff_lt]
    rw [credit_usage_peak, init_peak_get]

theorem subtract_found (b : Nat) (t : allocation_type) (s : ledger_state)
    (cur : Nat) (h : map_find s.usage t = some cur) :
    subtract_memory_used b t s
      = Except.ok { s with usage := map_set s.usage t (u64_sub cur b) } := by
  simp [subtract_memory_used, h]

theorem subtract_missing (b : Nat) (t : allocation_type) (s : ledger_state)
    (h : map_find s.usage t = none) :
    subtract_memory_used b t s
      = Except.error "Attempt to free unallocated memory" := by
  simp [subtract_memory_used, h]

theorem apply_debit_found (b : Nat) (t : allocation_type) (s : ledger_state)
    (cur : Nat) (h : map_find s.usage t = some cur) :
    apply_op (ledger_op.debit b t) s
      = { s with usage := map_set s.usage t (u64_sub cur b) } := by
  simp [apply_op, subtract_found b t s cur h]

theorem apply_debit_missing (b : Nat) (t : allocation_type)
    (s : ledger_state) (h : map_find s.usage t = none) :
    apply_op (ledger_op.debit b t) s = s := by
  simp [apply_op, subtract_missing b t s h]

theorem get_max_apply_debit (b : Nat) (t t1 : allocation_type)
    (s : ledger_state) :
    get_max_used_device_memory (apply_op (ledger_op.debit b t) s) t1
      = get_max_used_device_memory s t1 := by
  cases h : map_find s.usage t with
  | some cur =>
    rw [apply_debit_found b t s cur h]
    rfl
  | none => rw [apply_debit_missing b t s h]

theorem get_used_apply_debit_other (b : Nat) (t t1 : allocation_type)
    (s : ledger_state) (h : t1 ≠ t) :
    get_used_device_memory (apply_op (ledger_op.debit b t) s) t1
      = get_used_device_memory s t1 := by
  cases hf : map_find s.usage t with
  | some cur =>
    rw [apply_debit_found b t s cur hf]
    simp [get_used_device_memory, map_get_set_other _ _ _ _ h]
  | none => rw [apply_debit_missing b t s hf]

theorem get_used_apply_debit_self (b : Nat) (t : allocation_type)
    (s : ledger_state) (cur : Nat) (h : map_find s.usage t = some cur) :
    get_used_device_memory (apply_op (ledger_op.debit b t) s) t
      = u64_sub cur b := by
  rw [apply_debit_found b t s cur h]
  show map_get (map_set s.usage t (u64_sub cur b)) t = u64_sub cur b
  exact map_get_set_self _ _ _

theorem get_used_found (t : allocation_type) (s : ledger_state) (cur : Nat)
    (h : map_find s.usage t = some cur) :
    get_used_device_memory s t = cur := by
  simp [get_used_device_memory, map_get, h]

/-! ## Well-formedness and the ledger invariants -/

/-- Every stored current counter is a uint64_t value. -/
def ledger_wf (s : ledger_state) : Prop :=
  ∀ t, get_used_device_memory s t < 2 ^ 64

/-- The peak counter dominates the current counter for every type. -/
def ledger_peak_inv (s : ledger_state) : Prop :=
  ∀ t, get_used_device_memory s t ≤ get_max_used_device_memory s t

theorem ledger_wf_empty : ledger_wf empty_ledger := by
  intro t
  simp [empty_ledger, get_used_device_memory, map_get, map_find]

theorem ledger_peak_inv_empty : ledger_peak_inv empty_ledger := by
  intro t
  simp [empty_ledger, get_used_device_memory, get_max_used_device_memory,
    map_get, map_find]

theorem ledger_wf_apply (op : ledger_op) (s : ledger_state)
    (h : ledger_wf s) : ledger_wf (apply_op op s) := by
  intro t1
  cases op with
  | credit b t =>
    by_cases ht : t1 = t
    · subst ht
      show get_used_device_memory (apply_op (ledger_op.credit b t1) s) t1 < 2 ^ 64
      rw [show apply_op (ledger_op.credit b t1) s = add_memory_used b t1 s from rfl]
      rw [get_used_add_self]
      exact u64_add_lt _ _
    · rw [show apply_op (ledger_op.credit b t) s = add_memory_used b t s from rfl]
      rw [get_used_add_other _ _ _ _ ht]
      exact h t1
  | debit b t =>
    cases hf : map_find s.usage t with
    | some cur =>
      by_cases ht : t1 = t
      · subst ht
        rw [get_used_apply_debit_self _ _ _ _ hf]
        exact u64_sub_lt _ _
      · rw [get_used_apply_debit_other _ _ _ _ ht]
        exact h t1
    | none =>
      rw [apply_debit_missing _ _ _ hf]
      exact h t1

theorem ledger_wf_run (ops : List ledger_op) (s : ledger_state)
    (h : ledger_wf s) : ledger_wf (run_ops s ops) := by
  induction ops generalizing s with
  | nil => exact h
  | cons op rest ih => exact ih (apply_op op s) (ledger_wf_apply op s h)

theorem ledger_peak_inv_apply_credit (b : Nat) (t : allocation_type)
    (s : ledger_state) (hinv : ledger_peak_inv s) :
    ledger_peak_inv (apply_op (ledger_op.credit b t) s) := by
  intro t1
  rw [show apply_op (ledger_op.credit b t) s = add_memory_used b t s from rfl]
  by_cases ht : t1 = t
  · subst ht
    rw [get_used_add_self, get_max_add_self]
    exact le_max_right _ _
  · rw [get_used_add_other _ _ _ _ ht, get_max_add_other _ _ _ _ ht]
    exact hinv t1

theorem ledger_peak_inv_apply_debit (b : Nat) (t : allocation_type)
    (s : ledger_state) (hwf : ledger_wf s) (hinv : ledger_peak_inv s)
    (hb : b ≤ get_used_device_memory s t) :
    ledger_peak_inv (apply_op (ledger_op.debit b t) s) := by
  intro t1
  rw [get_max_apply_debit]
  cases hf : map_find s.usage t with
  | some cur =>
    by_cases ht : t1 = t
    · subst ht
      rw [get_used_apply_debit_self _ _ _ _ hf]
      have hcur : get_used_device_memory s t1 = cur := get_used_found _ _ _ hf
      rw [u64_sub_eq cur b (by omega) (by have := hwf t1; omega)]
      have := hinv t1
      omega
    · rw [get_used_apply_debit_other _ _ _ _ ht]
      exact hinv t1
  | none =>
    rw [apply_debit_missing _ _ _ hf]
    exact hinv t1

theorem ledger_invariants_run (ops : List ledger_op) (s : ledger_state)
    (hwf : ledger_wf s) (hinv : ledger_peak_inv s)
    (hv : valid_debits s ops = true) :
    ledger_wf (run_ops s ops) ∧ ledger_peak_inv (run_ops s ops) := by
  induction ops generalizing s with
  | nil => exact ⟨hwf, hinv⟩
  | cons op rest ih =>
    rcases Bool.and_eq_true_iff.mp hv with ⟨hop, hrest⟩
    have hwf1 : ledger_wf (apply_op op s) := ledger_wf_apply op s hwf
    have hinv1 : ledger_peak_inv (apply_op op s) := by
      cases op with
      | credit b t => exact ledger_peak_inv_apply_credit b t s hinv
      | debit b t =>
        exact ledger_peak_inv_apply_debit b t s hwf hinv (of_decide_eq_true hop)
    exact ih (apply_op op s) hwf1 hinv1 hrest

theorem peak_mono_apply (op : ledger_op) (t1 : allocation_type)
    (s : ledger_state) :
    get_max_used_device_memory s t1
      ≤ get_max_used_device_memory (apply_op op s) t1 := by
  cases op with
  | credit b t =>
    rw [show apply_op (ledger_op.credit b t) s = add_memory_used b t s from rfl]
    by_cases ht : t1 = t
    · subst ht
      rw [get_max_add_self]
      exact le_max_left _ _
    · rw [get_max_add_other _ _ _ _ ht]
  | debit b t =>
    rw [get_max_apply_debit]

theorem peak_mono_run (ops : List ledger_op) (t1 : allocation_type)
    (s : ledger_state) :
    get_max_used_device_memory s t1
      ≤ get_max_used_device_memory (run_ops s ops) t1 := by
  induction ops generalizing s with
  | nil => exact le_refl _
  | cons op rest ih =>
    exact le_trans (peak_mono_apply op t1 s) (ih (apply_op op s))

theorem run_ops_append (s : ledger_state) (l1 l2 : List ledger_op) :
    run_ops s (l1 ++ l2) = run_ops (run_ops s l1) l2 :=
  List.foldl_append _ _ _ _

theorem valid_debits_append_left (s : ledger_state) (l1 l2 : List ledger_op)
    (h : valid_debits s (l1 ++ l2) = true) : valid_debits s l1 = true := by
  induction l1 generalizing s with
  | nil => rfl
  | cons op rest ih =>
    rw [List.cons_append] at h
    rcases Bool.and_eq_true_iff.mp h with ⟨hop, hrest⟩
    exact Bool.and_eq_true_iff.mpr ⟨hop, ih (apply_op op s) hrest⟩

theorem valid_debits_take (s : ledger_state) (ops : List ledger_op) (n : Nat)
    (h : valid_debits s ops = true) : valid_debits s (ops.take n) = true := by
  have hsplit : ops = ops.take n ++ ops.drop n := (List.take_append_drop n ops).symm
  rw [hsplit] at h
  exact valid_debits_append_left s _ _ h

theorem run_ops_cons (s : ledger_state) (op : ledger_op)
    (ops : List ledger_op) :
    run_ops s (op :: ops) = run_ops (apply_op op s) ops := rfl

/-- Conservation of the per-type balance: over any run whose debits stay
within the running balance and whose credited total does not overflow the
uint64_t counter, `current + totalDebits = start + totalCredits`. -/
theorem run_current_conservation (ops : List ledger_op) (s : ledger_state)
    (t : allocation_type) (hwf : ledger_wf s)
    (hv : valid_debits s ops = true)
    (hb : get_used_device_memory s t + credit_sum t ops < 2 ^ 64) :
    get_used_device_memory (run_ops s ops) t + debit_sum t ops
      = get_used_device_memory s t + credit_sum t ops := by
  induction ops generalizing s with
  | nil => simp [run_ops, credit_sum, debit_sum]
  | cons op rest ih =>
    rcases Bool.and_eq_true_iff.mp hv with ⟨hop, hrest⟩
    cases op with
    | credit b t0 =>
      have hwf' : ledger_wf (apply_op (ledger_op.credit b t0) s) :=
        ledger_wf_apply _ s hwf
      by_cases ht : t0 = t
      · subst ht
        have hcs : credit_sum t0 (ledger_op.credit b t0 :: rest)
            = b + credit_sum t0 rest := by simp [credit_sum]
        have hds : debit_sum t0 (ledger_op.credit b t0 :: rest)
            = debit_sum t0 rest := rfl
        have hused : get_used_device_memory
            (apply_op (ledger_op.credit b t0) s) t0
              = get_used_device_memory s t0 + b := by
          show get_used_device_memory (add_memory_used b t0 s) t0 = _
          rw [get_used_add_self]
          exact u64_add_eq _ _ (by rw [hcs] at hb; omega)
        have hb' : get_used_device_memory
            (apply_op (ledger_op.credit b t0) s) t0
              + credit_sum t0 rest < 2 ^ 64 := by
          rw [hused]
          rw [hcs] at hb
          omega
        have hrec := ih (apply_op (ledger_op.credit b t0) s) hwf' hrest hb'
        rw [run_ops_cons, hds, hcs, hrec, hused]
        omega
      · have hcs : credit_sum t (ledger_op.credit b t0 :: rest)
            = credit_sum t rest := by simp [credit_sum, ht]
        have hds : debit_sum t (ledger_op.credit b t0 :: rest)
            = debit_sum t rest := rfl
        have hused : get_used_device_memory
            (apply_op (ledger_op.credit b t0) s) t
              = get_used_device_memory s t := by
          show get_used_device_memory (add_memory_used b t0 s) t = _
          exact get_used_add_other b t0 t s (fun hh => ht hh.symm)
        have hrec := ih (apply_op (ledger_op.credit b t0) s) hwf' hrest
          (by rw [hused]; rw [hcs] at hb; exact hb)
        rw [run_ops_cons, hds, hcs, hrec, hused]
    | debit b t0 =>
      have hwf' : ledger_wf (apply_op (ledger_op.debit b t0) s) :=
        ledger_wf_apply _ s hwf
      have hople : b ≤ get_used_device_memory s t0 := of_decide_eq_true hop
      cases hf : map_find s.usage t0 with
      | none =>
        have happ : apply_op (ledger_op.debit b t0) s = s :=
          apply_debit_missing _ _ _ hf
        have hzero : get_used_device_memory s t0 = 0 := by
          simp [get_used_device_memory, map_get, hf]
        have hbz : b = 0 := by omega
        subst hbz
        have hds : debit_sum t (ledger_op.debit 0 t0 :: rest)
            = debit_sum t rest := by simp [debit_sum]
        have hcs : credit_sum t (ledger_op.debit 0 t0 :: rest)
            = credit_sum t rest := rfl
        rw [happ] at hrest
        have hrec := ih s hwf hrest (by rw [hcs] at hb; exact hb)
        rw [run_ops_cons, happ, hds, hcs, hrec]
      | some cur =>
        by_cases ht : t0 = t
        · subst ht
          have hcur : get_used_device_memory s t0 = cur :=
            get_used_found _ _ _ hf
          have hcurlt : cur < 2 ^ 64 := by
            have := hwf t0
            omega
          have hused : get_used_device_memory
              (apply_op (ledger_op.debit b t0) s) t0 = cur - b := by
            rw [get_used_apply_debit_self _ _ _ _ hf]
            exact u64_sub_eq _ _ (by omega) hcurlt
          have hcs : credit_sum t0 (ledger_op.debit b t0 :: rest)
              = credit_sum t0 rest := rfl
          have hds : debit_sum t0 (ledger_op.debit b t0 :: rest)
              = b + debit_sum t0 rest := by simp [debit_sum]
          have hb' : get_used_device_memory
              (apply_op (ledger_op.debit b t0) s) t0
                + credit_sum t0 rest < 2 ^ 64 := by
            rw [hused]
            rw [hcs] at hb
            omega
          have hrec := ih (apply_op (ledger_op.debit b t0) s) hwf' hrest hb'
          rw [run_ops_cons, hds, hcs]
          omega
        · have hused : get_used_device_memory
              (apply_op (ledger_op.debit b t0) s) t
                = get_used_device_memory s t :=
            get_used_apply_debit_other b t0 t s (fun hh => ht hh.symm)
          have hcs : credit_sum t (ledger_op.debit b t0 :: rest)
              = credit_sum t rest := rfl
          have hds : debit_sum t (ledger_op.debit b t0 :: rest)
              = debit_sum t rest := by simp [debit_sum, ht]
          have hrec := ih (apply_op (ledger_op.debit b t0) s) hwf' hrest
            (by rw [hused]; rw [hcs] at hb; exact hb)
          rw [run_ops_cons, hds, hcs, hrec, hused]

/-! ## Engine factory -/

/-- The engine backend kinds dispatched on by `engine::create` (engine.cpp
lines 250-262); `ocl` is the only kind the shown factory constructs. -/
inductive engine_types where
  | ocl
  deriving DecidableEq, Repr

/-- The runtime kinds forwarded to the backend factory. -/
inductive runtime_types where
  | ocl
  deriving DecidableEq, Repr

/-- A discovered device, as supplied by the external `device_query`
collaborator. -/
structure gpu_device where
  dev_name : String
  caps : mem_caps

/-- An engine instance: bound to one device, owning one ledger. -/
structure gpu_engine where
  dev : gpu_device
  ledger : ledger_state

/-- Modelled from the spec: `ocl::create_ocl_engine` is declared in a header
that is not part of the shown sources; per the spec's factory contract it
constructs exactly one engine wrapping the chosen device, with a freshly
empty ledger. -/
def create_ocl_engine (d : gpu_device) (_rt : runtime_types) : gpu_engine :=
  { dev := d, ledger := empty_ledger }

/-- `engine::create(engine_type, runtime_type, device)` (engine.cpp lines
250-262): dispatch on the engine type to the backend factory. -/
def engine_create_with_device (et : engine_types) (rt : runtime_types)
    (d : gpu_device) : gpu_engine :=
  match et with
  | engine_types.ocl => create_ocl_engine d rt

/-- Device-map lookup, `devices.find(std::to_string(device_query::device_id))`. -/
def lookup_device (ds : List (String × gpu_device)) (id : String) :
    Option gpu_device :=
  match ds with
  | [] => none
  | (k, d) :: rest => if k = id then some d else lookup_device rest id

/-- `engine::create(engine_type, runtime_type)` (engine.cpp lines 264-275).
The available-device enumeration produced by the external `device_query`
collaborator and the static `device_query::device_id` are passed as
arguments; the `OPENVINO_ASSERT` on an empty enumeration is modelled as
`Except.error`.  When the requested id is present bind to it, otherwise to
the first enumerated device. -/
def engine_create (et : engine_types) (rt : runtime_types)
    (devices : List (String × gpu_device)) (device_id : String) :
    Except String gpu_engine :=
  match devices with
  | [] =>
    Except.error "Can't create engine as no suitable devices are found"
  | (k0, d0) :: rest =>
    let d :=
      match lookup_device ((k0, d0) :: rest) device_id with
      | some d1 => d1
      | none => d0
    Except.ok (engine_create_with_device et rt d)

/-- Shared helper: the support query rejects `usm_shared` for every
capability set (engine.cpp lines 89-90). -/
theorem supports_allocation_usm_shared_false (c : mem_caps) :
    supports_allocation c allocation_type.usm_shared = false := by
  unfold supports_allocation
  cases h : use_unified_shared_memory c <;> simp [is_usm_type]

/-- C5: for every device capability set and feature-gate state,
`supports_allocation(usm_shared)` returns false, even when the device
capability bitset and the USM gate both allow it. -/
theorem supports_allocation_never_usm_shared (c : mem_caps) :
    supports_allocation c allocation_type.usm_shared = false :=
  supports_allocation_usm_shared_false c

/-- C9: for `is_image=true`, both policy entry points return the device
default allocation type, for every capability set and gate state. -/
theorem policies_image_return_default (c : mem_caps) :
    get_preferred_memory_allocation_type c true = some c.default_alloc ∧
    get_lockable_preferred_memory_allocation_type c true
      = some c.default_alloc := by
  constructor <;>
    simp [get_preferred_memory_allocation_type,
      get_lockable_preferred_memory_allocation_type]

/-- C1 counterexample: with the feature gate enabled, the device supporting
USM and every allocation type including `usm_shared`, and a non-image
request, the lockable-preferred policy returns `usm_host`, not
`usm_shared`, because `supports_allocation` rejects `usm_shared`
unconditionally. -/
theorem lockable_usm_shared_counterexample :
    caps_all.disable_usm = false ∧
    caps_all.supports_usm = true ∧
    use_unified_shared_memory caps_all = true ∧
    caps_all.support_allocation_type allocation_type.usm_shared = true ∧
    get_lockable_preferred_memory_allocation_type caps_all false
      = some allocation_type.usm_host ∧
    get_lockable_preferred_memory_allocation_type caps_all false
      ≠ some allocation_type.usm_shared := by
  decide

/-- C1 (amended): when USM is usable, the device reports support for
`usm_shared` and the request is not an image, the lockable-preferred
policy never returns `usm_shared`; it returns `usm_host` when the
support query accepts `usm_host`, and otherwise fails with the fatal
configuration error. -/
theorem lockable_prefers_usm_host (c : mem_caps)
    (husm : use_unified_shared_memory c = true)
    (_hdev : c.support_allocation_type allocation_type.usm_shared = true) :
    get_lockable_preferred_memory_allocation_type c false
      = (if supports_allocation c allocation_type.usm_host then
          some allocation_type.usm_host
        else none) ∧
    get_lockable_preferred_memory_allocation_type c false
      ≠ some allocation_type.usm_shared := by
  have hsh := supports_allocation_usm_shared_false c
  constructor
  · simp [get_lockable_preferred_memory_allocation_type, husm, hsh]
  · simp only [get_lockable_preferred_memory_allocation_type, husm,
      Bool.not_true, Bool.false_or, if_false, hsh]
    by_cases hh : supports_allocation c allocation_type.usm_host <;>
      simp [hh]

/-- C1 witness: the amended statement evaluated at the all-capable
capability set. -/
theorem lockable_prefers_usm_host_witness :
    use_unified_shared_memory caps_all = true ∧
    caps_all.support_allocation_type allocation_type.usm_shared = true ∧
    (get_lockable_preferred_memory_allocation_type caps_all false
      = (if supports_allocation caps_all allocation_type.usm_host then
          some allocation_type.usm_host
        else none) ∧
     get_lockable_preferred_memory_allocation_type caps_all false
      ≠ some allocation_type.usm_shared) :=
  ⟨by decide, by decide,
    lockable_prefers_usm_host caps_all (by decide) (by decide)⟩

/-- C2 counterexample: for the all-capable capability set and a non-image
layout, the general policy prefers `usm_device` while the
`allocate_memory(layout, reset)` entry point selects `usm_host` — the
entry point does not use the general policy. -/
theorem allocate_policy_counterexample :
    get_preferred_memory_allocation_type caps_all false
      = some allocation_type.usm_device ∧
    allocate_memory_alloc_type caps_all layout_buffer
      = some allocation_type.usm_host ∧
    allocate_memory_alloc_type caps_all layout_buffer
      ≠ get_preferred_memory_allocation_type caps_all
          layout_buffer.format.is_image_2d := by
  decide

/-- C2 (amended): `allocate_memory(layout, reset)` selects its allocation
type with the lockable-preferred policy applied to
`layout.format.is_image_2d()`, not with the general preferred-type
policy. -/
theorem allocate_uses_lockable_policy (c : mem_caps) (l : mem_layout) :
    allocate_memory_alloc_type c l
      = get_lockable_preferred_memory_allocation_type c
          l.format.is_image_2d := rfl

/-- C3 counterexample: after crediting 5 bytes to `usm_host`, debiting 10
bytes is not rejected; the balance wraps around to `2^64 - 5` rather than
being clamped to zero. -/
theorem subtract_overdraw_counterexample :
    (subtract_memory_used 10 allocation_type.usm_host
        (add_memory_used 5 allocation_type.usm_host empty_ledger)).isOk
      = true ∧
    get_used_device_memory
        (apply_op (ledger_op.debit 10 allocation_type.usm_host)
          (add_memory_used 5 allocation_type.usm_host empty_ledger))
        allocation_type.usm_host
      = 2 ^ 64 - 5 ∧
    (2 ^ 64 - 5 : Nat) ≠ 0 := by
  decide

/-- C3 (amended): a debit is rejected only when the type has no ledger
entry; when an entry with balance `cur` exists, a debit of `b > cur`
succeeds and leaves the wrapped-around uint64 balance `2^64 - (b - cur)`
(neither rejected nor clamped to zero). -/
theorem subtract_overdraw_wraps (b : Nat) (t : allocation_type)
    (s : ledger_state) (cur : Nat) (hf : map_find s.usage t = some cur)
    (hlt : cur < b) (hb : b < 2 ^ 64) :
    (subtract_memory_used b t s).isOk = true ∧
    get_used_device_memory (apply_op (ledger_op.debit b t) s) t
      = 2 ^ 64 - (b - cur) := by
  constructor
  · rw [subtract_found b t s cur hf]
    rfl
  · rw [get_used_apply_debit_self b t s cur hf, u64_sub_wrap cur b hlt hb]

/-- C3 witness: the amended statement evaluated at balance 5 and debit
10. -/
theorem subtract_overdraw_wraps_witness :
    map_find (add_memory_used 5 allocation_type.usm_host
        empty_ledger).usage allocation_type.usm_host = some 5 ∧
    (5 : Nat) < 10 ∧ (10 : Nat) < 2 ^ 64 ∧
    ((subtract_memory_used 10 allocation_type.usm_host
        (add_memory_used 5 allocation_type.usm_host empty_ledger)).isOk
      = true ∧
     get_used_device_memory
        (apply_op (ledger_op.debit 10 allocation_type.usm_host)
          (add_memory_used 5 allocation_type.usm_host empty_ledger))
        allocation_type.usm_host
      = 2 ^ 64 - (10 - 5)) :=
  ⟨by decide, by decide, by decide,
    subtract_overdraw_wraps 10 allocation_type.usm_host
      (add_memory_used 5 allocation_type.usm_host empty_ledger) 5
      (by decide) (by decide) (by decide)⟩

/-- C4 counterexample: after the sequence credit 5, debit 10 on
`usm_host`, the peak is 5 but the current counter has wrapped to
`2^64 - 5`, so `peak >= current` fails for an over-debit sequence. -/
theorem peak_invariant_counterexample :
    get_max_used_device_memory
        (run_ops empty_ledger
          [ledger_op.credit 5 allocation_type.usm_host,
           ledger_op.debit 10 allocation_type.usm_host])
        allocation_type.usm_host = 5 ∧
    get_used_device_memory
        (run_ops empty_ledger
          [ledger_op.credit 5 allocation_type.usm_host,
           ledger_op.debit 10 allocation_type.usm_host])
        allocation_type.usm_host = 2 ^ 64 - 5 ∧
    ¬(get_used_device_memory
        (run_ops empty_ledger
          [ledger_op.credit 5 allocation_type.usm_host,
           ledger_op.debit 10 allocation_type.usm_host])
        allocation_type.usm_host
      ≤ get_max_used_device_memory
          (run_ops empty_ledger
            [ledger_op.credit 5 allocation_type.usm_host,
             ledger_op.debit 10 allocation_type.usm_host])
          allocation_type.usm_host) := by
  decide

/-- C4 (amended): over any sequence of credits and debits from the empty
ledger in which every debit stays within the current tracked balance of
its type, the peak counter of a type is non-decreasing along the
sequence (prefix `i` vs. prefix `j`) and dominates the current counter
after every prefix `n`. -/
theorem peak_monotone_and_dominates (ops : List ledger_op)
    (t : allocation_type) (i j n : Nat) (hij : i ≤ j)
    (hv : valid_debits empty_ledger ops = true) :
    get_max_used_device_memory (run_ops empty_ledger (ops.take i)) t
      ≤ get_max_used_device_memory (run_ops empty_ledger (ops.take j)) t ∧
    get_used_device_memory (run_ops empty_ledger (ops.take n)) t
      ≤ get_max_used_device_memory (run_ops empty_ledger (ops.take n)) t := by
  constructor
  · have h1 : i + (j - i) = j := by omega
    have hsplit : ops.take j = ops.take i ++ (ops.drop i).take (j - i) := by
      nth_rewrite 1 [← h1]
      exact List.take_add ops i (j - i)
    rw [hsplit, run_ops_append]
    exact peak_mono_run _ _ _
  · have hvn := valid_debits_take empty_ledger ops n hv
    exact (ledger_invariants_run (ops.take n) empty_ledger ledger_wf_empty
      ledger_peak_inv_empty hvn).2 t

/-- C4 witness: the amended statement evaluated on the sequence credit 5,
debit 3 with prefixes 1 ≤ 2. -/
theorem peak_monotone_and_dominates_witness :
    (1 : Nat) ≤ 2 ∧
    valid_debits empty_ledger
      [ledger_op.credit 5 allocation_type.usm_host,
       ledger_op.debit 3 allocation_type.usm_host] = true ∧
    (get_max_used_device_memory
        (run_ops empty_ledger
          ([ledger_op.credit 5 allocation_type.usm_host,
            ledger_op.debit 3 allocation_type.usm_host].take 1))
        allocation_type.usm_host
      ≤ get_max_used_device_memory
          (run_ops empty_ledger
            ([ledger_op.credit 5 allocation_type.usm_host,
              ledger_op.debit 3 allocation_type.usm_host].take 2))
          allocation_type.usm_host ∧
     get_used_device_memory
        (run_ops empty_ledger
          ([ledger_op.credit 5 allocation_type.usm_host,
            ledger_op.debit 3 allocation_type.usm_host].take 2))
        allocation_type.usm_host
      ≤ get_max_used_device_memory
          (run_ops empty_ledger
            ([ledger_op.credit 5 allocation_type.usm_host,
              ledger_op.debit 3 allocation_type.usm_host].take 2))
          allocation_type.usm_host) :=
  ⟨by decide, by decide,
    peak_monotone_and_dominates
      [ledger_op.credit 5 allocation_type.usm_host,
       ledger_op.debit 3 allocation_type.usm_host]
      allocation_type.usm_host 1 2 2 (by decide) (by decide)⟩

/-- C6: for every ledger state in which a type was never credited (no
current-usage entry exists), a debit of any amount for that type signals
the runtime error rather than silently doing nothing or creating an
entry. -/
theorem subtract_untracked_errors (b : Nat) (t : allocation_type)
    (s : ledger_state) (h : map_find s.usage t = none) :
    subtract_memory_used b t s
      = Except.error "Attempt to free unallocated memory" ∧
    (subtract_memory_used b t s).isOk = false := by
  refine ⟨subtract_missing b t s h, ?_⟩
  rw [subtract_missing b t s h]
  rfl

/-- C6 witness: debiting 7 bytes of a never-credited type on the empty
ledger signals the error. -/
theorem subtract_untracked_errors_witness :
    map_find empty_ledger.usage allocation_type.usm_host = none ∧
    (subtract_memory_used 7 allocation_type.usm_host empty_ledger
      = Except.error "Attempt to free unallocated memory" ∧
     (subtract_memory_used 7 allocation_type.usm_host
        empty_ledger).isOk = false) :=
  ⟨by decide,
    subtract_untracked_errors 7 allocation_type.usm_host empty_ledger
      (by decide)⟩

/-- C7 counterexample: two credits of `2^63` bytes (total `C = 2^64`,
`D = 0 ≤ C`, no debits at all) leave the current counter at 0, not
`C - D`: the uint64 counter wrapped. -/
theorem conservation_counterexample :
    valid_debits empty_ledger
      [ledger_op.credit (2 ^ 63) allocation_type.usm_host,
       ledger_op.credit (2 ^ 63) allocation_type.usm_host] = true ∧
    credit_sum allocation_type.usm_host
      [ledger_op.credit (2 ^ 63) allocation_type.usm_host,
       ledger_op.credit (2 ^ 63) allocation_type.usm_host] = 2 ^ 64 ∧
    debit_sum allocation_type.usm_host
      [ledger_op.credit (2 ^ 63) allocation_type.usm_host,
       ledger_op.credit (2 ^ 63) allocation_type.usm_host] = 0 ∧
    get_used_device_memory
        (run_ops empty_ledger
          [ledger_op.credit (2 ^ 63) allocation_type.usm_host,
           ledger_op.credit (2 ^ 63) allocation_type.usm_host])
        allocation_type.usm_host = 0 ∧
    (0 : Nat) ≠ 2 ^ 64 - 0 := by
  decide

/-- C7 (amended): for any sequence from the empty ledger whose debits stay
within the running balance of their type and whose credited total `C` for
the observed type fits in a uint64 (`C < 2^64`), the final current
counter equals `C - D` and `D ≤ C`. -/
theorem conservation_within_u64 (ops : List ledger_op)
    (t : allocation_type) (hv : valid_debits empty_ledger ops = true)
    (hc : credit_sum t ops < 2 ^ 64) :
    get_used_device_memory (run_ops empty_ledger ops) t
      = credit_sum t ops - debit_sum t ops ∧
    debit_sum t ops ≤ credit_sum t ops := by
  have h0 : get_used_device_memory empty_ledger t = 0 := by
    simp [empty_ledger, get_used_device_memory, map_get, map_find]
  have h := run_current_conservation ops empty_ledger t ledger_wf_empty hv
    (by rw [h0]; omega)
  rw [h0] at h
  omega

/-- C7 witness: the amended statement evaluated on credit 7, debit 2. -/
theorem conservation_within_u64_witness :
    valid_debits empty_ledger
      [ledger_op.credit 7 allocation_type.usm_host,
       ledger_op.debit 2 allocation_type.usm_host] = true ∧
    credit_sum allocation_type.usm_host
      [ledger_op.credit 7 allocation_type.usm_host,
       ledger_op.debit 2 allocation_type.usm_host] < 2 ^ 64 ∧
    (get_used_device_memory
        (run_ops empty_ledger
          [ledger_op.credit 7 allocation_type.usm_host,
           ledger_op.debit 2 allocation_type.usm_host])
        allocation_type.usm_host
      = credit_sum allocation_type.usm_host
          [ledger_op.credit 7 allocation_type.usm_host,
           ledger_op.debit 2 allocation_type.usm_host]
        - debit_sum allocation_type.usm_host
            [ledger_op.credit 7 allocation_type.usm_host,
             ledger_op.debit 2 allocation_type.usm_host] ∧
     debit_sum allocation_type.usm_host
        [ledger_op.credit 7 allocation_type.usm_host,
         ledger_op.debit 2 allocation_type.usm_host]
      ≤ credit_sum allocation_type.usm_host
          [ledger_op.credit 7 allocation_type.usm_host,
           ledger_op.debit 2 allocation_type.usm_host]) :=
  ⟨by decide, by decide,
    conservation_within_u64
      [ledger_op.credit 7 allocation_type.usm_host,
       ledger_op.debit 2 allocation_type.usm_host]
      allocation_type.usm_host (by decide) (by decide)⟩

/-- C8: for every engine type, runtime type and requested device id, an
empty device enumeration makes the factory fail with the diagnostic
error; no engine value is produced. -/
theorem create_empty_enumeration_fails (et : engine_types)
    (rt : runtime_types) (id : String) :
    engine_create et rt [] id
      = Except.error "Can't create engine as no suitable devices are found" :=
  rfl

/-- C10: a debit for a type with no ledger entry signals the error and
leaves the whole ledger state exactly unchanged — no entry is created and
no counter of any type is modified. -/
theorem subtract_untracked_atomic (b : Nat) (t : allocation_type)
    (s : ledger_state) (h : map_find s.usage t = none) :
    apply_op (ledger_op.debit b t) s = s ∧
    map_find (apply_op (ledger_op.debit b t) s).usage t = none := by
  refine ⟨apply_debit_missing b t s h, ?_⟩
  rw [apply_debit_missing b t s h]
  exact h

/-- C10 witness: debiting the never-credited `usm_host` on a ledger that
tracks only `usm_device` leaves the ledger exactly as it was. -/
theorem subtract_untracked_atomic_witness :
    map_find (add_memory_used 4 allocation_type.usm_device
        empty_ledger).usage allocation_type.usm_host = none ∧
    (apply_op (ledger_op.debit 9 allocation_type.usm_host)
        (add_memory_used 4 allocation_type.usm_device empty_ledger)
      = add_memory_used 4 allocation_type.usm_device empty_ledger ∧
     map_find (apply_op (ledger_op.debit 9 allocation_type.usm_host)
        (add_memory_used 4 allocation_type.usm_device
          empty_ledger)).usage allocation_type.usm_host = none) :=
  ⟨by decide,
    subtract_untracked_atomic 9 allocation_type.usm_host
      (add_memory_used 4 allocation_type.usm_device empty_ledger)
      (by decide)⟩
